import Mathlib

/-!
Verification of the GAMBO-Website TV subsystem (src/main.js).

Shallow embedding of the TV state machine, media adapters, screen-space
hit mapper, press/glow feedback and the night-vision auto-gain controller
of `src/main.js`, together with proofs of the specified properties.

JS `number` arithmetic is embedded over `ℚ` (all computations involved are
exact decimal arithmetic, well within double precision), timestamps
(`performance.now()`, milliseconds) are `ℚ` values passed explicitly, and
the mutable module-level variables are collected into explicit state
records threaded through the translated functions.
-/

namespace GamboTv

/- ============================================================
   NIGHT VISION AUTO-GAIN (src/main.js lines 199-256, 606-633)
   ============================================================ -/

/-- Source: `aeTargetLuma = 0.18` (line 207). -/
def aeTargetLuma : ℚ := 18/100

/-- Source: `aeMinGain = 0.80` (line 208). -/
def aeMinGain : ℚ := 80/100

/-- Source: `aeMaxGain = 3.20` (line 209). -/
def aeMaxGain : ℚ := 320/100

/-- The initial / reset value of `aeGain`: `1.45` (lines 206 and 614). -/
def aeGainInit : ℚ := 145/100

/-- Source: `eps = 1e-4` (line 244). -/
def aeEps : ℚ := 1/10000

/-- Source: `adapt = 0.10`, the single-pole smoothing factor (line 252). -/
def aeAdapt : ℚ := 10/100

/-- Lines 244-248: `desired = aeTargetLuma / Math.max(eps, avgLuma)` clamped to
`[aeMinGain, aeMaxGain]` via `Math.max(aeMinGain, Math.min(aeMaxGain, desired))`. -/
def aeDesired (avgLuma : ℚ) : ℚ :=
  max aeMinGain (min aeMaxGain (aeTargetLuma / max aeEps avgLuma))

/-- Line 253: `aeGain += (desired - aeGain) * adapt` — one auto-gain sample tick. -/
def aeStep (gain avgLuma : ℚ) : ℚ :=
  gain + (aeDesired avgLuma - gain) * aeAdapt

/-- Iterated sample ticks at a constant measured average luminance. -/
def aeIter (avgLuma : ℚ) : ℕ → ℚ → ℚ
  | 0, g => g
  | n + 1, g => aeIter avgLuma n (aeStep g avgLuma)

/-- The state owned by `updateNightVisionAutoGain`: the smoothed gain `aeGain`
(line 206) and the sample accumulator `aeSampleAccum` (line 211). -/
structure AeState where
  gain : ℚ
  accum : ℚ
  deriving DecidableEq, Repr

/-- Lines 213-256, `updateNightVisionAutoGain(dt)`: no-op unless night vision is
on; accumulates `dt` and only samples once the accumulator reaches `1/12` s
(~12 Hz); the luminance read-back of lines 222-241 is the external input
`avgLuma`; then applies the desired-gain / clamp / smooth update. -/
def updateNightVisionAutoGain (nightVisionOn : Bool) (dt avgLuma : ℚ)
    (s : AeState) : AeState :=
  if nightVisionOn = false then s
  else if s.accum + dt < 1/12 then { s with accum := s.accum + dt }
  else { gain := aeStep s.gain avgLuma, accum := 0 }

/-- Every value the night-vision gain can reach: the module-load initial value
(line 206), the reset performed by `setNightVision(true)` (line 614), and the
sample-tick update (line 253) from any reachable value at any measured
average luminance. -/
inductive AeReachable : ℚ → Prop
  | init : AeReachable aeGainInit
  | enable : AeReachable aeGainInit
  | step (g avgLuma : ℚ) : AeReachable g → AeReachable (aeStep g avgLuma)

/- ============================================================
   COVER-FIT DRAW GEOMETRY (lines 2584-2606, 2852-2874, 3133-3155)
   ============================================================ -/

/-- The destination rectangle computed by the cover-fit blit:
width, height and top-left corner passed to `drawImage`. -/
structure CoverRect where
  dw : ℚ
  dh : ℚ
  dx : ℚ
  dy : ℚ
  deriving DecidableEq, Repr

/-- Lines 2592-2604 of `drawPhotoToTv`: `scale = Math.max(w/iw, h/ih)`,
`overscan = 1.02`, `dw = iw*scale*overscan`, `dh = ih*scale*overscan`,
`dx = (w-dw)*0.5`, `dy = (h-dh)*0.5`. -/
def photoCoverRect (w h iw ih : ℚ) : CoverRect :=
  let scale := max (w / iw) (h / ih)
  let overscan : ℚ := 102/100
  let dw := iw * scale * overscan
  let dh := ih * scale * overscan
  { dw := dw, dh := dh, dx := (w - dw) * (1/2), dy := (h - dh) * (1/2) }

/-- JS `x || d` for the non-negative dimension defaulting in the video draws
(`videoEl.videoWidth || 16` etc.): `0` is falsy, any other value is kept. -/
def jsOr (x d : ℚ) : ℚ := if x = 0 then d else x

/-- Lines 2862-2871 of `drawVideoFrameToTv`: `iw = videoEl.videoWidth || 16`,
`ih = videoEl.videoHeight || 9`, then the same cover computation as PHOTO. -/
def videoCoverRect (w h videoWidth videoHeight : ℚ) : CoverRect :=
  let iw := jsOr videoWidth 16
  let ih := jsOr videoHeight 9
  let scale := max (w / iw) (h / ih)
  let overscan : ℚ := 102/100
  let dw := iw * scale * overscan
  let dh := ih * scale * overscan
  { dw := dw, dh := dh, dx := (w - dw) * (1/2), dy := (h - dh) * (1/2) }

/-- Lines 3144-3153 of `drawModelFrameToTv`: identical text to the VIDEO
version, on the model video element's dimensions.  (The model-as-image path,
line 3125, calls `drawPhotoToTv` itself.) -/
def modelCoverRect (w h videoWidth videoHeight : ℚ) : CoverRect :=
  let iw := jsOr videoWidth 16
  let ih := jsOr videoHeight 9
  let scale := max (w / iw) (h / ih)
  let overscan : ℚ := 102/100
  let dw := iw * scale * overscan
  let dh := ih * scale * overscan
  { dw := dw, dh := dh, dx := (w - dw) * (1/2), dy := (h - dh) * (1/2) }

/- ============================================================
   SCREEN-SPACE HIT MAPPER (lines 2392-2415, 3787-3802)
   ============================================================ -/

/-- Source: `tvCanvas.width = 1920` (line 2392). -/
def TV_CANVAS_W : ℚ := 1920

/-- Source: `tvCanvas.height = 1080` (line 2393). -/
def TV_CANVAS_H : ℚ := 1080

/-- Source: `TV_MENU_BTN.pad = 36` (line 2412). -/
def TV_MENU_BTN_pad : ℚ := 36

/-- Source: `TV_MENU_BTN.w = 220` (line 2413). -/
def TV_MENU_BTN_w : ℚ := 220

/-- Source: `TV_MENU_BTN.h = 86` (line 2414). -/
def TV_MENU_BTN_h : ℚ := 86

/-- Lines 3791-3795 of `onPointerDown`: `u = uv.x*repeat.x + offset.x`,
`v = uv.y*repeat.y + offset.y`, `px = u*w`, `py = v*h`. -/
def tvHitPixel (uvx uvy rx ry ox oy w h : ℚ) : ℚ × ℚ :=
  ((uvx * rx + ox) * w, (uvy * ry + oy) * h)

/-- Line 3797: `bx = w - TV_MENU_BTN.pad - TV_MENU_BTN.w`. -/
def menuBtnX (w : ℚ) : ℚ := w - TV_MENU_BTN_pad - TV_MENU_BTN_w

/-- Line 3798: `by = TV_MENU_BTN.pad`. -/
def menuBtnY : ℚ := TV_MENU_BTN_pad

/-- Lines 3800-3802: `px >= bx && px <= bx + w && py >= by && py <= by + h`. -/
def inMenuBtn (px py w : ℚ) : Bool :=
  decide (menuBtnX w ≤ px) && decide (px ≤ menuBtnX w + TV_MENU_BTN_w) &&
  decide (menuBtnY ≤ py) && decide (py ≤ menuBtnY + TV_MENU_BTN_h)

/- ============================================================
   TV STATE MACHINE AND MEDIA ADAPTERS
   (lines 2392-2532, 2538-2939, 2941-3253, 3398-3567)
   ============================================================ -/

/-- Source: `PHOTO_PATHS` (lines 2538-2546). -/
def PHOTO_PATHS : List String :=
  ["./assets/Photo/01-sweet.jpg",
   "./assets/Photo/02-carti.jpg",
   "./assets/Photo/03-james.jpg",
   "./assets/Photo/04-roof.jpg",
   "./assets/Photo/05-scan.jpg",
   "./assets/Photo/06-nyc.jpg",
   "./assets/Photo/07-nardo.jpg"]

/-- Source: `VIDEO_PATHS` (lines 2670-2674). -/
def VIDEO_PATHS : List String :=
  ["./assets/Video/01-sweet93-OG.mp4",
   "./assets/Video/02-sweet93-chopped.mp4",
   "./assets/Video/03-sweet93-snow.mp4"]

/-- Source: `MODEL_PATHS` (lines 2952-2958). -/
def MODEL_PATHS : List String :=
  ["./assets/3D Model/01-Gate.mp4",
   "./assets/3D Model/02-Skateboard.mp4",
   "./assets/3D Model/03-Skateboard-2.mp4",
   "./assets/3D Model/04-UAP.mp4",
   "./assets/3D Model/05-website.jpg"]

/-- Source: `MENU_ITEMS = ["PHOTO", "VIDEO", "3D MODEL"]` (line 2480). -/
def MENU_ITEMS : List String := ["PHOTO", "VIDEO", "3D MODEL"]

/-- JS `(index + n) % n` on a gallery of length `n` (JS `%` truncates toward
zero; the call sites pass `index ≥ -1` with `n ≥ 1`, for which the result is
the non-negative wrap). -/
def wrapIndex (index : ℤ) (n : ℕ) : ℕ := (Int.tmod (index + n) n).toNat

/-- File-extension sniffing of `isImageUrl` (lines 2942-2944):
case-insensitive test of the part of the url before any query string
(`url.split("?")[0]`) against the png / jpe?g / webp / gif alternatives of
the regex, as a suffix match on the character list. -/
def isImageUrl (url : String) : Bool :=
  let stem := (url.data.takeWhile (fun c => c ≠ '?')).map Char.toLower
  [".png", ".jpg", ".jpeg", ".webp", ".gif"].any fun e => e.data.isSuffixOf stem

/-- The relevant observable fields of a persistent HTML media element
(`videoEl` line 2677, `modelVideoEl` line 2963). -/
structure MediaEl where
  src : Option String
  loop : Bool
  paused : Bool
  currentTime : ℚ
  deriving DecidableEq, Repr

/-- The power transition record `tvAnim = { from, to, t0 }` (line 3565);
`t0` is in seconds (`performance.now() / 1000`). -/
structure TvAnim where
  animFrom : ℕ
  animTo : ℕ
  t0 : ℚ
  deriving DecidableEq, Repr

/-- Abstraction of the contents of the 1920x1080 `tvCanvas` raster: every
drawing routine of the source begins with a full-canvas `clearRect` +
background `fillRect`, so the buffer contents are determined by which routine
painted last and its inputs. -/
inductive Canvas
  /-- The untouched canvas at module load (transparent). -/
  | blank : Canvas
  /-- A full-canvas opaque `fillRect` with the given RGB color
  (`clearTvScreen`, lines 3236-3245). -/
  | filled (color : ℕ) : Canvas
  /-- `drawTvMenu` (lines 2442-2478) with the given selection index. -/
  | menu (menuIndex : ℕ) : Canvas
  /-- `drawPhotoToTv(img)` (lines 2584-2657) with the image loaded from
  `url`, and whether the MENU button overlay was drawn (line 2611). -/
  | photo (url : String) (menuBtn : Bool) : Canvas
  /-- `drawVideoFrameToTv` (lines 2852-2939): current frame of `src`,
  MENU-button overlay flag, PAUSED-banner flag. -/
  | videoFrame (src : Option String) (menuBtn paused : Bool) : Canvas
  /-- `drawModelFrameToTv` (lines 3133-3230), same data as the video frame. -/
  | modelFrame (src : Option String) (menuBtn paused : Bool) : Canvas
  deriving DecidableEq, Repr

/-- Source: `clearTvScreen` fills every pixel with `#000000` (lines 3241-3242). -/
def TV_OFF_COLOR : ℕ := 0

/-- Whether every pixel of the canvas equals the given color: true for a
full-canvas opaque fill with that color; media / menu paints are not uniform
(and the blank canvas is transparent), so they conservatively test false. -/
def Canvas.allPixels : Canvas → ℕ → Bool
  | .filled k, col => k == col
  | _, _ => false

/-- The module-level mutable state of the TV subsystem of `src/main.js`,
restricted to the variables the verified properties touch.  The two `has*`
flags stand for the nullability of the once-resolved mesh/material references
(`tvScreenMeshRef`, `tvScreenMatRef`); `texAttached` is whether
`tvScreenMatRef.map` is the live `tvTex` (line 3250). -/
structure MainState where
  -- power and transition animation (lines 3398-3404)
  tvOn : Bool
  tvAnim : Option TvAnim
  tvPower : ℚ
  tvBootT0 : ℚ
  tvBooting : Bool
  -- menu UI (lines 2403-2406)
  tvUiState : String
  menuIndex : ℕ
  blinkT0 : ℚ
  menuHover : Bool
  -- raster surface and screen material
  canvas : Canvas
  hasScreenMesh : Bool
  hasScreenMat : Bool
  texAttached : Bool
  screenScaleY : ℚ
  emissiveIntensity : ℚ
  matColorA : ℚ
  -- photo adapter (lines 2551-2553, 1273)
  photoIndex : ℕ
  photoImage : Option String
  photoLoading : Bool
  currentPhotoUrl : Option String
  -- video adapter (lines 2676-2680)
  videoIndex : ℕ
  videoEl : Option MediaEl
  videoReady : Bool
  videoPlaying : Bool
  videoWantsAutoPlay : Bool
  -- model adapter (lines 2960-2972)
  modelIndex : ℕ
  modelVideoEl : Option MediaEl
  modelMediaType : String
  modelReady : Bool
  modelPlaying : Bool
  modelWantsAutoPlay : Bool
  currentModelUrl : Option String
  modelImageLoading : Bool
  -- fullscreen overlays (lines 1274, 1773, 1974)
  overlayOpen : Bool
  videoOverlayOpen : Bool
  modelOverlayOpen : Bool
  deriving DecidableEq, Repr

/-- Source: `drawTvMenu` (lines 2442-2478): repaints the whole canvas with the menu at
the current selection index. -/
def drawTvMenu (s : MainState) : MainState :=
  { s with canvas := Canvas.menu s.menuIndex }

/-- Source: `clearTvScreen` (lines 3236-3245): full-canvas black fill. -/
def clearTvScreen (s : MainState) : MainState :=
  { s with canvas := Canvas.filled TV_OFF_COLOR }

/-- Source: `applyTvTextureEnabled(enabled)` (lines 3247-3253): no-op when the screen
material reference is unresolved, else attaches or detaches `tvTex` as the
material's map and emissive map. -/
def applyTvTextureEnabled (enabled : Bool) (s : MainState) : MainState :=
  if s.hasScreenMat = false then s else { s with texAttached := enabled }

/-- Source: `drawPhotoToTv(img)` (lines 2584-2657): full repaint with the image
(identified by its source url); the MENU button overlay is drawn exactly when
`tvOn && (tvUiState === "PHOTO" || tvUiState === "3D MODEL")` (line 2611). -/
def drawPhotoToTv (url : String) (s : MainState) : MainState :=
  let menuBtn := s.tvOn && (s.tvUiState == "PHOTO" || s.tvUiState == "3D MODEL")
  { s with canvas := Canvas.photo url menuBtn }

/-- Source: `loadPhotoAt(index)` (lines 2556-2582): guarded on the TV being on and in
PHOTO mode; wraps the index, records the new current url, sets the loading
flag and issues the asynchronous `imgLoader.load` request (whose success
callback is `photoLoadSuccess` below). -/
def loadPhotoAt (index : ℤ) (s : MainState) : MainState :=
  if s.tvOn = false then s
  else if s.tvUiState ≠ "PHOTO" then s
  else
    let n := PHOTO_PATHS.length
    let photoIndex := wrapIndex index n
    let url := PHOTO_PATHS.getD photoIndex ""
    { s with photoIndex := photoIndex, currentPhotoUrl := some url,
             photoLoading := true }

/-- The success callback of the `imgLoader.load` call issued by `loadPhotoAt`
for the photo at `url` (lines 2571-2575): `photoImage = img;
photoLoading = false; drawPhotoToTv(img);`.  It closes only over the received
image and performs no check that `url` is still the active photo. -/
def photoLoadSuccess (url : String) (s : MainState) : MainState :=
  drawPhotoToTv url { s with photoImage := some url, photoLoading := false }

/-- The error callback of the same request (lines 2577-2580). -/
def photoLoadError (s : MainState) : MainState :=
  { s with photoLoading := false }

/-- Source: `nextPhoto(delta)` (lines 2659-2665): guarded on TV on, PHOTO mode, and no
photo load in flight. -/
def nextPhoto (delta : ℤ) (s : MainState) : MainState :=
  if s.tvOn = false then s
  else if s.tvUiState ≠ "PHOTO" then s
  else if s.photoLoading = true then s
  else loadPhotoAt (s.photoIndex + delta) s

/-- Source: `ensureVideoEl` (lines 2684-2714): creates the single persistent video
element once, with `loop = true` (line 2692), and registers its `loadeddata`,
`pause` and `play` listeners — no `ended` listener is registered on it
anywhere in the source. -/
def ensureVideoEl (s : MainState) : MainState :=
  match s.videoEl with
  | some _ => s
  | none =>
    let el : MediaEl := { src := none, loop := true, paused := true, currentTime := 0 }
    { s with videoEl := some el }

/-- Source: `playVideo` (lines 2770-2782), modelling the `videoEl.play()` promise as
succeeding (the rejected-autoplay path leaves `videoPlaying = false` and is
not exercised by the verified properties). -/
def playVideo (s : MainState) : MainState :=
  if s.tvOn = false then s
  else if s.tvUiState ≠ "VIDEO" then s
  else
    match s.videoEl with
    | none => s
    | some el =>
      { s with videoEl := some { el with paused := false }, videoPlaying := true }

/-- Source: `pauseVideo` (lines 2784-2788). -/
def pauseVideo (s : MainState) : MainState :=
  match s.videoEl with
  | none => s
  | some el =>
    { s with videoEl := some { el with paused := true }, videoPlaying := false }

/-- Source: `stopVideoCompletely` (lines 2790-2804): pause, reset position, drop the
decoded-frame flag. -/
def stopVideoCompletely (s : MainState) : MainState :=
  match s.videoEl with
  | none => s
  | some el =>
    { s with videoEl := some { el with paused := true, currentTime := 0 },
             videoPlaying := false, videoReady := false }

/-- Source: `loadVideoAt(index, {autoPlay})` (lines 2716-2768): guarded on TV on and
VIDEO mode; wraps the index, stops and rewinds the persistent element, swaps
its source, blanks the screen while loading, and optionally starts playback.
(The `loadedmetadata`/`canplay`/`error` once-listeners and the 8 s timeout of
lines 2744-2759 only release the external loading tracker.) -/
def loadVideoAt (index : ℤ) (autoPlay : Bool) (s : MainState) : MainState :=
  if s.tvOn = false then s
  else if s.tvUiState ≠ "VIDEO" then s
  else
    let s := ensureVideoEl s
    let n := VIDEO_PATHS.length
    let videoIndex := wrapIndex index n
    let url := VIDEO_PATHS.getD videoIndex ""
    let s := { s with videoIndex := videoIndex, videoReady := false,
                      videoPlaying := false }
    let s :=
      match s.videoEl with
      | none => s
      | some el =>
        let el2 : MediaEl := { el with paused := true, currentTime := 0, src := some url }
        { s with videoEl := some el2 }
    let s := clearTvScreen s
    if autoPlay then playVideo s else s

/-- Source: `toggleVideoPlayPause` (lines 2807-2811). -/
def toggleVideoPlayPause (s : MainState) : MainState :=
  match s.videoEl with
  | none => s
  | some el => if el.paused then playVideo s else pauseVideo s

/-- Source: `nextVideo(delta)` (lines 2813-2820): keeps the playing state across the
track switch. -/
def nextVideo (delta : ℤ) (s : MainState) : MainState :=
  if s.tvOn = false then s
  else if s.tvUiState ≠ "VIDEO" then s
  else
    let shouldPlay := s.videoPlaying &&
      (match s.videoEl with | none => false | some el => !el.paused)
    loadVideoAt (s.videoIndex + delta) shouldPlay s

/-- Source: `ensureModelVideoEl` (lines 2975-3002): same shape as `ensureVideoEl`,
`loop = true` (line 2983), listeners `loadeddata` / `pause` / `play` only. -/
def ensureModelVideoEl (s : MainState) : MainState :=
  match s.modelVideoEl with
  | some _ => s
  | none =>
    let el : MediaEl := { src := none, loop := true, paused := true, currentTime := 0 }
    { s with modelVideoEl := some el }

/-- Source: `playModel` (lines 3069-3081), play promise modelled as succeeding. -/
def playModel (s : MainState) : MainState :=
  if s.tvOn = false then s
  else if s.tvUiState ≠ "3D MODEL" then s
  else
    match s.modelVideoEl with
    | none => s
    | some el =>
      { s with modelVideoEl := some { el with paused := false },
               modelPlaying := true }

/-- Source: `pauseModel` (lines 3083-3088). -/
def pauseModel (s : MainState) : MainState :=
  if s.modelMediaType ≠ "video" then s
  else
    match s.modelVideoEl with
    | none => s
    | some el =>
      { s with modelVideoEl := some { el with paused := true },
               modelPlaying := false }

/-- Source: `stopModelCompletely` (lines 3092-3103). -/
def stopModelCompletely (s : MainState) : MainState :=
  match s.modelVideoEl with
  | none => s
  | some el =>
    { s with modelVideoEl := some { el with paused := true, currentTime := 0 },
             modelPlaying := false, modelReady := false }

/-- Source: `loadModelAt(index, {autoPlay})` (lines 3011-3067): wraps the index,
blanks the screen, then branches on the asset's mime class — image assets
pause any previous model video and start an image load; video assets swap the
persistent model video element's source and play or pause it. -/
def loadModelAt (index : ℤ) (autoPlay : Bool) (s : MainState) : MainState :=
  if s.tvOn = false then s
  else if s.tvUiState ≠ "3D MODEL" then s
  else
    let n := MODEL_PATHS.length
    let modelIndex := wrapIndex index n
    let url := MODEL_PATHS.getD modelIndex ""
    let s := { s with modelIndex := modelIndex, currentModelUrl := some url,
                      modelReady := false, modelPlaying := false }
    let s := clearTvScreen s
    if isImageUrl url then
      let s := { s with modelMediaType := "image" }
      let s :=
        match s.modelVideoEl with
        | none => s
        | some el => { s with modelVideoEl := some { el with paused := true } }
      { s with modelPlaying := false, modelImageLoading := true }
    else
      let s := { s with modelMediaType := "video" }
      let s := ensureModelVideoEl s
      let s :=
        match s.modelVideoEl with
        | none => s
        | some el =>
          let el2 : MediaEl := { el with paused := true, currentTime := 0, src := some url }
          { s with modelVideoEl := some el2 }
      if autoPlay then playModel s else pauseModel s

/-- Source: `toggleModelPlayPause` (lines 3105-3110). -/
def toggleModelPlayPause (s : MainState) : MainState :=
  if s.modelMediaType ≠ "video" then s
  else
    match s.modelVideoEl with
    | none => s
    | some el => if el.paused then playModel s else pauseModel s

/-- Source: `nextModel(delta)` (lines 3113-3120). -/
def nextModel (delta : ℤ) (s : MainState) : MainState :=
  if s.tvOn = false then s
  else if s.tvUiState ≠ "3D MODEL" then s
  else
    let shouldPlay := s.modelPlaying &&
      (match s.modelVideoEl with | none => false | some el => !el.paused)
    loadModelAt (s.modelIndex + delta) shouldPlay s

/-- Source: `moveMenuSelection(delta)` (lines 2482-2496): only when the TV is on and
in MENU; wraps the selection modulo the 3 items, resets the blink baseline
and repaints the menu immediately. -/
def moveMenuSelection (delta : ℤ) (nowMs : ℚ) (s : MainState) : MainState :=
  if s.tvOn = false then s
  else if s.tvUiState ≠ "MENU" then s
  else
    let n := MENU_ITEMS.length
    let menuIndex := wrapIndex ((s.menuIndex : ℤ) + delta) n
    drawTvMenu { s with menuIndex := menuIndex, blinkT0 := nowMs }

/-- Source: `confirmMenuSelection` (lines 2498-2532): only in MENU; switches
`tvUiState` to the selected item and starts that mode at index 0 (with
autoplay for the video/model kinds). -/
def confirmMenuSelection (s : MainState) : MainState :=
  if s.tvOn = false then s
  else if s.tvUiState ≠ "MENU" then s
  else
    let selected := MENU_ITEMS.getD s.menuIndex ""
    let s := { s with tvUiState := selected }
    if s.tvUiState = "PHOTO" then
      loadPhotoAt 0 { s with photoImage := none, photoLoading := false }
    else if s.tvUiState = "VIDEO" then
      loadVideoAt 0 true (ensureVideoEl s)
    else if s.tvUiState = "3D MODEL" then
      loadModelAt 0 true (ensureModelVideoEl s)
    else drawTvMenu s

/-- Source: `setTvPower(nextOn)` (lines 3525-3567): no-op when already in the
requested power state; power-off synchronously stops both media adapters,
blanks the screen and detaches the texture; power-on re-attaches the texture,
resets the menu (selection index, blink baseline), starts the boot flicker
and repaints the menu; both directions finally create a fresh transition
animation record with `t0 = performance.now() / 1000`. -/
def setTvPower (nextOn : Bool) (nowMs : ℚ) (s : MainState) : MainState :=
  let animFrom : ℕ := if s.tvOn then 1 else 0
  let animTo : ℕ := if nextOn then 1 else 0
  if animFrom = animTo then s
  else
    let s := { s with tvOn := nextOn }
    let s :=
      if nextOn = false then
        applyTvTextureEnabled false
          (clearTvScreen (stopModelCompletely (stopVideoCompletely s)))
      else applyTvTextureEnabled true s
    let s :=
      if nextOn then
        drawTvMenu { s with blinkT0 := nowMs, tvUiState := "MENU",
                            menuIndex := 0, tvBootT0 := nowMs, tvBooting := true }
      else s
    { s with tvAnim := some { animFrom := animFrom, animTo := animTo,
                              t0 := nowMs / 1000 } }

/-- Source: `easeOutCubic` interpolation of line 3577. -/
def easeOutCubic (t : ℚ) : ℚ := 1 - (1 - t)^3

/-- Source: `updateTv` (lines 3569-3635): the per-frame power/transition animator.
`nowMs` is `performance.now()`; `rand` is the `Math.random()` sample of the
boot flicker (line 3607).  It drives only the visual material/scale fields
and the animation record, never the logical TV state. -/
def updateTv (nowMs rand : ℚ) (s : MainState) : MainState :=
  if s.hasScreenMesh = false then s
  else
    match s.tvAnim with
    | none => s
    | some anim =>
      if s.hasScreenMat = false then s
      else
        let dt := nowMs / 1000 - anim.t0
        let dur : ℚ := 55/100
        let t := easeOutCubic (min (dt / dur) 1)
        let a := (anim.animFrom : ℚ) + ((anim.animTo : ℚ) - anim.animFrom) * t
        let s := { s with tvPower := a,
                          screenScaleY := 985/1000 + 15/1000 * a }
        let onI : ℚ := 125/100
        let pop := a * (1 - a) * 4
        let intensity := onI * a + 35/100 * pop
        let booted :=
          if s.tvBooting then
            let dtBoot := (nowMs - s.tvBootT0) / 1000
            if dtBoot < 8/100 then (intensity + 22/10, s.tvBooting)
            else if dtBoot < 23/100 then (intensity * (85/100 + rand * (3/10)), s.tvBooting)
            else (intensity, false)
          else (intensity, s.tvBooting)
        let s := { s with emissiveIntensity := booted.1, tvBooting := booted.2,
                          matColorA := a }
        if dur ≤ dt then
          { s with tvAnim := none, screenScaleY := 1,
                   emissiveIntensity := if s.tvOn then onI else 0,
                   matColorA := if s.tvOn then 1 else 0,
                   tvPower := if s.tvOn then 1 else 0 }
        else s

/- ============================================================
   POINTER-DOWN TV-SCREEN BRANCHES (lines 3780-3816, 3823-3857, 3959-3999)
   ============================================================

   `tvTex` is a `CanvasTexture` whose `repeat` and `offset` are never
   reassigned in the source, so the `tvTex.repeat?.x ?? 1` /
   `tvTex.offset?.x ?? 0` reads of the hit mapper are the constants
   (1, 1) and (0, 0). -/

/-- The PHOTO-mode TV-screen click branch of `onPointerDown`
(lines 3780-3816), for a raycast hit on the screen mesh with UV
`(uvx, uvy)`: inside the MENU-button rectangle it returns to MENU (resetting
the blink baseline and repainting the menu); outside it opens the fullscreen
photo overlay. -/
def tvScreenClickPhoto (uvx uvy nowMs : ℚ) (s : MainState) : MainState :=
  if s.tvOn = false then s
  else if s.tvUiState ≠ "PHOTO" then s
  else if inMenuBtn ((uvx * 1 + 0) * TV_CANVAS_W) ((uvy * 1 + 0) * TV_CANVAS_H)
      TV_CANVAS_W then
      drawTvMenu { s with tvUiState := "MENU", blinkT0 := nowMs }
    else
      { s with overlayOpen := true }

/-- The VIDEO-mode TV-screen click branch (lines 3823-3857): the MENU-button
hit additionally stops video playback completely before returning to MENU. -/
def tvScreenClickVideo (uvx uvy nowMs : ℚ) (s : MainState) : MainState :=
  if s.tvOn = false then s
  else if s.tvUiState ≠ "VIDEO" then s
  else if inMenuBtn ((uvx * 1 + 0) * TV_CANVAS_W) ((uvy * 1 + 0) * TV_CANVAS_H)
      TV_CANVAS_W then
      drawTvMenu { stopVideoCompletely s with tvUiState := "MENU", blinkT0 := nowMs }
    else
      { s with videoOverlayOpen := true }

/-- The 3D-MODEL-mode TV-screen click branch (lines 3959-3999): the
MENU-button hit stops the model playback before returning to MENU. -/
def tvScreenClickModel (uvx uvy nowMs : ℚ) (s : MainState) : MainState :=
  if s.tvOn = false then s
  else if s.tvUiState ≠ "3D MODEL" then s
  else if inMenuBtn ((uvx * 1 + 0) * TV_CANVAS_W) ((uvy * 1 + 0) * TV_CANVAS_H)
      TV_CANVAS_W then
      drawTvMenu { stopModelCompletely s with tvUiState := "MENU", blinkT0 := nowMs }
    else
      { s with modelOverlayOpen := true }

/- ============================================================
   NATURAL END OF THE PERSISTENT TV VIDEO ELEMENT
   ============================================================ -/

/-- The event types for which `src/main.js` registers listeners on the
persistent TV video element `videoEl`: `loadeddata`, `pause`, `play` in
`ensureVideoEl` (lines 2696-2713) and the once-listeners `loadeddata`,
`canplay`, `error` in `loadVideoAt` (lines 2755-2757). -/
def videoElListenerEvents : List String :=
  ["loadeddata", "pause", "play", "loadeddata", "canplay", "error"]

/-- Dispatch of the state-relevant `videoEl` listeners: the `pause` and `play`
listeners of lines 2712-2713 maintain `videoPlaying`; events with no
registered listener leave the state unchanged. -/
def videoElDispatch (ev : String) (s : MainState) : MainState :=
  if videoElListenerEvents.contains ev = false then s
  else if ev = "pause" then { s with videoPlaying := false }
  else if ev = "play" then { s with videoPlaying := true }
  else s

/-- HTML media semantics of the playing TV video element reaching the end of
its media resource: `videoEl.loop = true` (line 2692, never reassigned), so
the element seeks back to the start and keeps playing, and no `ended` event
fires; with `loop = false` the element would pause and fire `pause` then
`ended` — and `videoElListenerEvents` contains no `ended` entry, because the
source never registers one on `videoEl`. -/
def videoNaturalEnd (s : MainState) : MainState :=
  match s.videoEl with
  | none => s
  | some el =>
    if el.loop then
      { s with videoEl := some { el with currentTime := 0 } }
    else
      let s := { s with videoEl := some { el with paused := true } }
      videoElDispatch "ended" (videoElDispatch "pause" s)

/- ============================================================
   BLUETOOTH SPEAKER PLAYLIST (lines 3255-3396)
   ============================================================ -/

/-- Source: `tracks` (lines 3255-3275): the 19-entry speaker playlist. -/
def tracks : List String :=
  ["./assets/Audio/01-dunkelheit-02.mp3",
   "./assets/Audio/02-rip-fredo-notice-me-01.mp3",
   "./assets/Audio/03-floor-555-01.mp3",
   "./assets/Audio/04-12r-01.mp3",
   "./assets/Audio/05-leave-everything-01.mp3",
   "./assets/Audio/06-27-title-flight-01.mp3",
   "./assets/Audio/07-nwo-ministry-01.mp3",
   "./assets/Audio/08-bline-01.mp3",
   "./assets/Audio/09-centaurella-44-01.mp3",
   "./assets/Audio/10-under-the-same-name-01.mp3",
   "./assets/Audio/11-a-sad-cartoon-01.mp3",
   "./assets/Audio/12-one-weak-01.mp3",
   "./assets/Audio/13-xo-01.mp3",
   "./assets/Audio/14-min-dag-01.mp3",
   "./assets/Audio/15-frosting-01.mp3",
   "./assets/Audio/16-relay-01.mp3",
   "./assets/Audio/17-pistol-01.mp3",
   "./assets/Audio/18-widowdusk-01.mp3",
   "./assets/Audio/19-letters-to-frances-01.mp3"]

/-- The speaker playlist state: `trackIndex` and `isPlaying`
(lines 3277-3278). -/
structure AudioState where
  trackIndex : ℕ
  isPlaying : Bool
  deriving DecidableEq, Repr

/-- Source: `nextTrack(forcePlay)` (lines 3382-3396): advances the track cursor
modulo the playlist length and resumes playback if it was playing (or
forced); the `playCurrent` play promise is modelled as succeeding. -/
def nextTrack (forcePlay : Bool) (s : AudioState) : AudioState :=
  let wasPlaying := s.isPlaying || forcePlay
  let s := { s with trackIndex := (s.trackIndex + 1) % tracks.length }
  if wasPlaying then { s with isPlaying := true }
  else { s with isPlaying := false }

/-- The `ended` listener installed on the audio element of track `i`
(lines 3331-3340): advances to the next track only if the ended track is
still the active one and playback was active. -/
def audioEndedHandler (i : ℕ) (s : AudioState) : AudioState :=
  if i ≠ s.trackIndex then s
  else if s.isPlaying = false then s
  else nextTrack false s

/- ============================================================
   PRESS/GLOW FEEDBACK (lines 1129-1268)
   ============================================================ -/

/-- Source: `MAX_GLOW_HOVER_MS = 2000` (line 1141). -/
def MAX_GLOW_HOVER_MS : ℚ := 2000

/-- The per-mesh glow state of lines 1163-1172 (the emissive base colors and
the smoothed lerp value are visual-only and carried as `t`). -/
structure GlowSt where
  t : ℚ
  target : ℚ
  hoverStartMs : ℚ
  forcedOff : Bool
  deriving DecidableEq, Repr

/-- Source: `setGlowTarget(mesh, targetOn, glowColor)` (lines 1175-1211), acting on
the mesh's glow state with `now = performance.now()`: starting or continuing
a hover stamps the hover start time, keeps a forced-off glow off, forces it
off once the continuous hover reaches `MAX_GLOW_HOVER_MS`, and otherwise
targets full glow; ending the hover resets the timer and the forced-off
latch. -/
def setGlowTarget (targetOn : Bool) (nowMs : ℚ) (st : GlowSt) : GlowSt :=
  if targetOn then
    let st := if st.hoverStartMs = 0 then { st with hoverStartMs := nowMs } else st
    if st.forcedOff then { st with target := 0 }
    else if MAX_GLOW_HOVER_MS ≤ nowMs - st.hoverStartMs then
      { st with forcedOff := true, target := 0 }
    else { st with target := 1 }
  else
    { st with hoverStartMs := 0, forcedOff := false, target := 0 }

/-- The hover-cutoff enforcement at the top of `updateGlow`
(lines 1229-1235), which fires even when no pointermove is delivered. -/
def updateGlowCutoff (nowMs : ℚ) (st : GlowSt) : GlowSt :=
  if st.target = 1 ∧ st.hoverStartMs ≠ 0 ∧ st.forcedOff = false ∧
      MAX_GLOW_HOVER_MS ≤ nowMs - st.hoverStartMs then
    { st with forcedOff := true, target := 0 }
  else st

/- ============================================================
   CONCRETE STATES FOR THE SCENARIO PROOFS
   ============================================================ -/

/-- The module-load values of the embedded mutable variables (TV off, MENU
selection 0, no media elements, untouched canvas), with the screen mesh and
material references taken as resolved by the scene load. -/
def initialState : MainState :=
  { tvOn := false, tvAnim := none, tvPower := 0, tvBootT0 := 0, tvBooting := false,
    tvUiState := "MENU", menuIndex := 0, blinkT0 := 0, menuHover := false,
    canvas := Canvas.blank, hasScreenMesh := true, hasScreenMat := true,
    texAttached := false, screenScaleY := 1, emissiveIntensity := 0, matColorA := 0,
    photoIndex := 0, photoImage := none, photoLoading := false, currentPhotoUrl := none,
    videoIndex := 0, videoEl := none, videoReady := false, videoPlaying := false,
    videoWantsAutoPlay := false,
    modelIndex := 0, modelVideoEl := none, modelMediaType := "video",
    modelReady := false, modelPlaying := false, modelWantsAutoPlay := false,
    currentModelUrl := none, modelImageLoading := false,
    overlayOpen := false, videoOverlayOpen := false, modelOverlayOpen := false }

/-- Power the TV on at t = 0 ms and confirm the default PHOTO selection:
the TV is in PHOTO mode with the load of photo 0 in flight. -/
def photoModeState : MainState :=
  confirmMenuSelection (setTvPower true 0 initialState)

/-- From PHOTO mode, issue `load(0)` and then immediately `load(1)` before
either resolves, then let the callbacks fire out of issue order: the second
request's callback first, the first request's callback last. -/
def staleRaceState : MainState :=
  photoLoadSuccess (PHOTO_PATHS.getD 0 "")
    (photoLoadSuccess (PHOTO_PATHS.getD 1 "")
      (loadPhotoAt 1 (loadPhotoAt 0 photoModeState)))

/-- Power on at t = 0, move the menu selection down once at t = 100 ms and
confirm: the TV is in VIDEO mode with `menuIndex = 1`, playing video 0. -/
def videoModeState : MainState :=
  confirmMenuSelection (moveMenuSelection 1 100 (setTvPower true 0 initialState))

/-- In-canvas MENU-button click (UV (0.95, 0.05)) from VIDEO mode at
t = 500 ms. -/
def menuFromVideoState : MainState :=
  tvScreenClickVideo (95/100) (5/100) 500 videoModeState

/-- Power on at t = 0, move the selection down twice and confirm: the TV is
in 3D MODEL mode playing model 0. -/
def modelModeState : MainState :=
  confirmMenuSelection
    (moveMenuSelection 1 200 (moveMenuSelection 1 100 (setTvPower true 0 initialState)))

/- ============================================================
   THEOREMS
   ============================================================ -/

/-- Helper: the power/transition animator `updateTv` drives only the visual
fields; it never changes the playback flags, the canvas contents or the
texture attachment. -/
lemma updateTv_logical (nowMs rand : ℚ) (s : MainState) :
    (updateTv nowMs rand s).videoPlaying = s.videoPlaying
    ∧ (updateTv nowMs rand s).modelPlaying = s.modelPlaying
    ∧ (updateTv nowMs rand s).canvas = s.canvas
    ∧ (updateTv nowMs rand s).texAttached = s.texAttached := by
  unfold updateTv
  by_cases h1 : s.hasScreenMesh = false
  · simp [h1]
  · simp only [h1, if_false]
    rcases s.tvAnim with _ | anim
    · simp
    · by_cases h2 : s.hasScreenMat = false
      · simp [h2]
      · by_cases h3 : (55 : ℚ)/100 ≤ nowMs / 1000 - anim.t0 <;>
          simp [h2, h3]

/-- Claim C3: for every UV hit (u, v) on the TV screen with texture repeat
(rx, ry) and offset (ox, oy), the hit mapper computes
px = (u*rx + ox) * 1920 and py = (v*ry + oy) * 1080; UV (0.95, 0.05) with
repeat (1,1) and offset (0,0) maps to pixel (1824, 54), which lies inside
the MENU-button rectangle anchored top-right at bx = 1920-36-220 = 1664,
by = 36 with width 220 and height 86. -/
theorem hit_mapper_menu_button :
    (∀ u v rx ry ox oy : ℚ,
      tvHitPixel u v rx ry ox oy TV_CANVAS_W TV_CANVAS_H =
        ((u * rx + ox) * 1920, (v * ry + oy) * 1080))
    ∧ tvHitPixel (95/100) (5/100) 1 1 0 0 TV_CANVAS_W TV_CANVAS_H = (1824, 54)
    ∧ menuBtnX TV_CANVAS_W = 1920 - 36 - 220
    ∧ menuBtnX TV_CANVAS_W = 1664
    ∧ menuBtnY = 36
    ∧ TV_MENU_BTN_w = 220
    ∧ TV_MENU_BTN_h = 86
    ∧ inMenuBtn 1824 54 TV_CANVAS_W = true := by
  refine ⟨fun _ _ _ _ _ _ => rfl, ?_, ?_, ?_, ?_, ?_, ?_, ?_⟩
  · norm_num [tvHitPixel, TV_CANVAS_W, TV_CANVAS_H, Prod.ext_iff]
  · norm_num [menuBtnX, TV_CANVAS_W, TV_MENU_BTN_pad, TV_MENU_BTN_w]
  · norm_num [menuBtnX, TV_CANVAS_W, TV_MENU_BTN_pad, TV_MENU_BTN_w]
  · norm_num [menuBtnY, TV_MENU_BTN_pad]
  · norm_num [TV_MENU_BTN_w]
  · norm_num [TV_MENU_BTN_h]
  · norm_num [inMenuBtn, menuBtnX, menuBtnY, TV_CANVAS_W, TV_MENU_BTN_pad,
      TV_MENU_BTN_w, TV_MENU_BTN_h]

/-- Claim C6: the cover-fit computation (scale = max(bufferW/imgW,
bufferH/imgH), drawn size = source size * scale * 1.02, centered) is
identical across the Photo, Video and Model draw routines (the video paths
first default missing dimensions to 16x9), and for buffer 1920x1080 with
image 800x600 it gives scale 2.4 and the stated drawn rectangle. -/
theorem cover_fit_policy :
    (∀ w h vw vh : ℚ,
      videoCoverRect w h vw vh = photoCoverRect w h (jsOr vw 16) (jsOr vh 9))
    ∧ (∀ w h vw vh : ℚ, modelCoverRect w h vw vh = videoCoverRect w h vw vh)
    ∧ max ((1920 : ℚ)/800) ((1080 : ℚ)/600) = 12/5
    ∧ photoCoverRect 1920 1080 800 600 =
        { dw := 800 * (12/5) * (102/100), dh := 600 * (12/5) * (102/100),
          dx := (1920 - 800 * (12/5) * (102/100)) * (1/2),
          dy := (1080 - 600 * (12/5) * (102/100)) * (1/2) }
    ∧ videoCoverRect 1920 1080 800 600 = photoCoverRect 1920 1080 800 600
    ∧ modelCoverRect 1920 1080 800 600 = photoCoverRect 1920 1080 800 600 := by
  refine ⟨fun _ _ _ _ => rfl, fun _ _ _ _ => rfl, ?_, ?_, ?_, ?_⟩
  · rw [max_eq_left (by norm_num)]
    norm_num
  · norm_num [photoCoverRect, CoverRect.mk.injEq, max_def]
  · norm_num [videoCoverRect, photoCoverRect, jsOr]
  · norm_num [modelCoverRect, photoCoverRect, jsOr]

/-- Helper: at measured luminance 0.09 the clamped desired gain is exactly
the target ratio 0.18 / 0.09 = 2. -/
lemma aeDesired_const : aeDesired (9/100) = 2 := by
  have h1 : max aeEps (9/100 : ℚ) = 9/100 := max_eq_right (by norm_num [aeEps])
  have h2 : aeTargetLuma / (9/100 : ℚ) = 2 := by norm_num [aeTargetLuma]
  unfold aeDesired
  rw [h1, h2, min_eq_right (by norm_num [aeMaxGain]),
    max_eq_right (by norm_num [aeMinGain])]

/-- Helper: one auto-gain step at constant measured luminance 0.09 moves the
gain from `g` to `2 + (9/10) * (g - 2)`. -/
lemma aeStep_const (g : ℚ) : aeStep g (9/100) = 2 + (9/10) * (g - 2) := by
  have h : aeDesired (9/100) = 2 := aeDesired_const
  unfold aeStep
  rw [h]
  unfold aeAdapt
  ring

/-- Helper: the distance to the fixed point 2 contracts by exactly 9/10 per
step at constant measured luminance 0.09. -/
lemma aeStep_dist (g : ℚ) : |aeStep g (9/100) - 2| = (9/10) * |g - 2| := by
  rw [aeStep_const]
  have h : (2 : ℚ) + (9/10) * (g - 2) - 2 = (9/10) * (g - 2) := by ring
  rw [h, abs_mul]
  norm_num

/-- Claim C5: with night vision enabled and constant measured average
luminance 0.09 against target 0.18, each sample tick updates the gain by
gain + (clamp(0.18 / max(eps, 0.09), minGain, maxGain) - gain) * 0.10, and
across repeated ticks the gain monotonically approaches
min(maxGain, 0.18/0.09) = 2 without overshooting it, the distance to 2
contracting by the smoothing factor's complement 9/10 each tick. -/
theorem autogain_converges (g dt : ℚ) (s : AeState) :
    aeDesired (9/100) =
      max aeMinGain (min aeMaxGain (aeTargetLuma / max aeEps (9/100)))
    ∧ aeDesired (9/100) = min aeMaxGain 2
    ∧ aeStep g (9/100) = g + (aeDesired (9/100) - g) * (10/100)
    ∧ (1/12 ≤ s.accum + dt →
        updateNightVisionAutoGain true dt (9/100) s =
          { gain := aeStep s.gain (9/100), accum := 0 })
    ∧ (g ≤ 2 → g ≤ aeStep g (9/100) ∧ aeStep g (9/100) ≤ 2)
    ∧ (2 ≤ g → aeStep g (9/100) ≤ g ∧ 2 ≤ aeStep g (9/100))
    ∧ |aeStep g (9/100) - 2| = (9/10) * |g - 2|
    ∧ (∀ n : ℕ, |aeIter (9/100) n g - 2| = (9/10)^n * |g - 2|) := by
  refine ⟨rfl, by rw [aeDesired_const, min_eq_right (by norm_num [aeMaxGain])],
    rfl, ?_, ?_, ?_, aeStep_dist g, ?_⟩
  · intro h
    unfold updateNightVisionAutoGain
    rw [if_neg (by simp : ¬(true = false)), if_neg (not_lt.mpr h)]
  · intro h
    rw [aeStep_const]
    constructor <;> linarith
  · intro h
    rw [aeStep_const]
    constructor <;> linarith
  · intro n
    induction n generalizing g with
    | zero => simp [aeIter]
    | succ k ih =>
      have h2 : aeIter (9/100) (k+1) g = aeIter (9/100) k (aeStep g (9/100)) := rfl
      rw [h2, ih (aeStep g (9/100)), aeStep_dist g, pow_succ]
      ring

/-- Witness for C5 at the initial gain 1.45 and a sample-ready accumulator. -/
theorem autogain_converges_witness :
    ((29/20 : ℚ) ≤ 2 ∧
      ((29/20 : ℚ) ≤ aeStep (29/20) (9/100) ∧ aeStep (29/20) (9/100) ≤ 2))
    ∧ ((1/12 : ℚ) ≤ 1/24 + 1/12 ∧
        updateNightVisionAutoGain true (1/12) (9/100) ⟨29/20, 1/24⟩ =
          { gain := aeStep (29/20) (9/100), accum := 0 }) :=
  ⟨⟨by norm_num, (autogain_converges (29/20) (1/12) ⟨29/20, 1/24⟩).2.2.2.2.1
      (by norm_num)⟩,
   ⟨by norm_num, (autogain_converges (29/20) (1/12) ⟨29/20, 1/24⟩).2.2.2.1
      (by norm_num)⟩⟩

/-- Claim C10: the night-vision gain always lies in
[minGain, maxGain] = [0.80, 3.20]: it starts at 1.45, is reset to 1.45 on
every re-enable, and every auto-gain update replaces it with a convex
combination of itself and a value clamped into the interval, so every
reachable gain stays inside it. -/
theorem autogain_bounded (g : ℚ) (h : AeReachable g) :
    aeMinGain ≤ g ∧ g ≤ aeMaxGain := by
  induction h with
  | init => exact ⟨by norm_num [aeMinGain, aeGainInit], by norm_num [aeMaxGain, aeGainInit]⟩
  | enable => exact ⟨by norm_num [aeMinGain, aeGainInit], by norm_num [aeMaxGain, aeGainInit]⟩
  | step g0 avgLuma _ ih =>
    have hd1 : aeMinGain ≤ aeDesired avgLuma := le_max_left _ _
    have hd2 : aeDesired avgLuma ≤ aeMaxGain := by
      unfold aeDesired
      exact max_le (by norm_num [aeMinGain, aeMaxGain]) (min_le_left _ _)
    unfold aeStep aeAdapt
    constructor <;> [nlinarith [ih.1]; nlinarith [ih.2]]

/-- Witness for C10 at the initial gain. -/
theorem autogain_bounded_witness :
    aeMinGain ≤ aeGainInit ∧ aeGainInit ≤ aeMaxGain :=
  autogain_bounded aeGainInit AeReachable.init

/-- Claim C8: every TV operation invoked outside its valid state is a no-op
leaving the whole TV state unchanged: moveSelection and confirm outside MENU,
mode navigation when the current state differs from that mode, and
setPower(true) while already powered on (so no duplicate power-animation
instance is created — the animation record is part of the unchanged state). -/
theorem invalid_inputs_noop (s : MainState) (d : ℤ) (nowMs : ℚ) :
    (s.tvUiState ≠ "MENU" → moveMenuSelection d nowMs s = s)
    ∧ (s.tvUiState ≠ "MENU" → confirmMenuSelection s = s)
    ∧ (s.tvUiState ≠ "PHOTO" → nextPhoto d s = s)
    ∧ (s.tvUiState ≠ "VIDEO" → nextVideo d s = s)
    ∧ (s.tvUiState ≠ "3D MODEL" → nextModel d s = s)
    ∧ (s.tvOn = true → setTvPower true nowMs s = s) := by
  refine ⟨?_, ?_, ?_, ?_, ?_, ?_⟩ <;> intro h
  · simp [moveMenuSelection, h]
  · simp [confirmMenuSelection, h]
  · simp [nextPhoto, h]
  · simp [nextVideo, h]
  · simp [nextModel, h]
  · simp [setTvPower, h]

/-- Witness for C8 in concrete PHOTO- and VIDEO-mode states. -/
theorem invalid_inputs_noop_witness :
    moveMenuSelection 1 900 photoModeState = photoModeState
    ∧ confirmMenuSelection photoModeState = photoModeState
    ∧ nextVideo 1 photoModeState = photoModeState
    ∧ nextModel 1 photoModeState = photoModeState
    ∧ setTvPower true 900 photoModeState = photoModeState
    ∧ nextPhoto 1 videoModeState = videoModeState :=
  ⟨(invalid_inputs_noop photoModeState 1 900).1 (by decide),
   (invalid_inputs_noop photoModeState 1 900).2.1 (by decide),
   (invalid_inputs_noop photoModeState 1 900).2.2.2.1 (by decide),
   (invalid_inputs_noop photoModeState 1 900).2.2.2.2.1 (by decide),
   (invalid_inputs_noop photoModeState 1 900).2.2.2.2.2 (by decide),
   (invalid_inputs_noop videoModeState 1 900).2.2.1 (by decide)⟩

/-- Claim C9: hovering a button continuously past the 2000 ms maximum hover
duration forces its glow target to 0 while the hover is still active (both in
the pointer-move path and in the per-frame enforcement), the glow stays
forced off for the rest of that hover, and after the hover fully ends a
re-entry targets full glow again. -/
theorem glow_hover_cutoff (st : GlowSt) (t1 t2 t3 : ℚ) :
    MAX_GLOW_HOVER_MS = 2000
    ∧ (st.hoverStartMs ≠ 0 → st.forcedOff = false →
        MAX_GLOW_HOVER_MS ≤ t1 - st.hoverStartMs →
        (setGlowTarget true t1 st).target = 0
        ∧ (setGlowTarget true t1 st).forcedOff = true)
    ∧ (st.target = 1 → st.hoverStartMs ≠ 0 → st.forcedOff = false →
        MAX_GLOW_HOVER_MS ≤ t1 - st.hoverStartMs →
        (updateGlowCutoff t1 st).target = 0
        ∧ (updateGlowCutoff t1 st).forcedOff = true)
    ∧ (st.forcedOff = true →
        (setGlowTarget true t2 st).target = 0
        ∧ (setGlowTarget true t2 st).forcedOff = true)
    ∧ (setGlowTarget false t2 st).target = 0
    ∧ (setGlowTarget false t2 st).forcedOff = false
    ∧ (setGlowTarget false t2 st).hoverStartMs = 0
    ∧ (setGlowTarget true t3 (setGlowTarget false t2 st)).target = 1 := by
  refine ⟨by norm_num [MAX_GLOW_HOVER_MS], ?_, ?_, ?_, ?_, ?_, ?_, ?_⟩
  · intro h1 h2 h3
    simp [setGlowTarget, h1, h2, h3]
  · intro ht h1 h2 h3
    simp [updateGlowCutoff, ht, h1, h2, h3]
  · intro h
    by_cases h0 : st.hoverStartMs = 0 <;> simp [setGlowTarget, h, h0]
  · simp [setGlowTarget]
  · simp [setGlowTarget]
  · simp [setGlowTarget]
  · norm_num [setGlowTarget, MAX_GLOW_HOVER_MS]

/-- Witness for C9 with a hover that started at 10 ms, checked at 2500 ms. -/
theorem glow_hover_cutoff_witness :
    ((setGlowTarget true 2500 ⟨0, 1, 10, false⟩).target = 0
      ∧ (setGlowTarget true 2500 ⟨0, 1, 10, false⟩).forcedOff = true)
    ∧ ((updateGlowCutoff 2500 ⟨0, 1, 10, false⟩).target = 0
      ∧ (updateGlowCutoff 2500 ⟨0, 1, 10, false⟩).forcedOff = true)
    ∧ ((setGlowTarget true 3000 ⟨0, 0, 10, true⟩).target = 0
      ∧ (setGlowTarget true 3000 ⟨0, 0, 10, true⟩).forcedOff = true) :=
  ⟨(glow_hover_cutoff ⟨0, 1, 10, false⟩ 2500 3000 4000).2.1
      (by norm_num) rfl (by norm_num [MAX_GLOW_HOVER_MS]),
   (glow_hover_cutoff ⟨0, 1, 10, false⟩ 2500 3000 4000).2.2.1
      rfl (by norm_num) rfl (by norm_num [MAX_GLOW_HOVER_MS]),
   (glow_hover_cutoff ⟨0, 0, 10, true⟩ 2500 3000 4000).2.2.2.1 rfl⟩

/-- Claim C1 counterexample: issue load(0) then immediately load(1) from a
PHOTO-mode state and let the two image callbacks resolve out of issue order
(request 1 first, request 0 last — so the first request's callback fires
after the second request was issued).  The stale callback overwrites the
displayed image: the final canvas and photoImage belong to index 0, not
index 1, even though photoIndex is 1. -/
theorem stale_photo_load_counterexample :
    staleRaceState.photoIndex = 1
    ∧ staleRaceState.photoImage = some (PHOTO_PATHS.getD 0 "")
    ∧ staleRaceState.canvas = Canvas.photo (PHOTO_PATHS.getD 0 "") true
    ∧ staleRaceState.canvas ≠ Canvas.photo (PHOTO_PATHS.getD 1 "") true :=
  ⟨rfl, rfl, rfl, by decide⟩

/-- Claim C1 (amended): the image-load callbacks never modify `photoIndex`,
so after load(0);load(1) the index is 1; user navigation (`nextPhoto`) cannot
issue the second load while the first is in flight because of the
`photoLoading` guard; and if the callbacks fire in issue order the final
displayed image is index 1's.  But the first request's callback, firing
after the second request was issued, unconditionally overwrites the
displayed image with the stale photo — there is no is-this-still-the-active
index check — so only the callback that happens to fire last determines the
displayed image. -/
theorem stale_photo_load_amended (s : MainState)
    (hOn : s.tvOn = true) (hUi : s.tvUiState = "PHOTO") :
    (∀ (url : String) (t : MainState),
      (photoLoadSuccess url t).photoIndex = t.photoIndex)
    ∧ (loadPhotoAt 1 (loadPhotoAt 0 s)).photoIndex = 1
    ∧ (photoLoadSuccess (PHOTO_PATHS.getD 1 "")
        (photoLoadSuccess (PHOTO_PATHS.getD 0 "")
          (loadPhotoAt 1 (loadPhotoAt 0 s)))).photoIndex = 1
    ∧ (photoLoadSuccess (PHOTO_PATHS.getD 1 "")
        (photoLoadSuccess (PHOTO_PATHS.getD 0 "")
          (loadPhotoAt 1 (loadPhotoAt 0 s)))).canvas
        = Canvas.photo (PHOTO_PATHS.getD 1 "") true
    ∧ (∀ d : ℤ, nextPhoto d (loadPhotoAt 0 s) = loadPhotoAt 0 s) := by
  have w1 : wrapIndex 1 PHOTO_PATHS.length = 1 := by decide
  refine ⟨fun url t => rfl, ?_, ?_, ?_, ?_⟩
  · simp [loadPhotoAt, hOn, hUi, w1]
  · simp [photoLoadSuccess, drawPhotoToTv, loadPhotoAt, hOn, hUi, w1]
  · simp [photoLoadSuccess, drawPhotoToTv, loadPhotoAt, hOn, hUi]
  · intro d
    simp [nextPhoto, loadPhotoAt, hOn, hUi]

/-- Witness for the amended C1 at the concrete PHOTO-mode state. -/
theorem stale_photo_load_amended_witness :
    (loadPhotoAt 1 (loadPhotoAt 0 photoModeState)).photoIndex = 1
    ∧ (photoLoadSuccess (PHOTO_PATHS.getD 1 "")
        (photoLoadSuccess (PHOTO_PATHS.getD 0 "")
          (loadPhotoAt 1 (loadPhotoAt 0 photoModeState)))).canvas
        = Canvas.photo (PHOTO_PATHS.getD 1 "") true :=
  ⟨(stale_photo_load_amended photoModeState rfl rfl).2.1,
   (stale_photo_load_amended photoModeState rfl rfl).2.2.2.1⟩

/-- Helper: UV (0.95, 0.05) maps into the MENU-button rectangle. -/
lemma menuBtn_hit_uv :
    inMenuBtn ((95/100 * 1 + 0) * TV_CANVAS_W) ((5/100 * 1 + 0) * TV_CANVAS_H)
      TV_CANVAS_W = true := by
  norm_num [inMenuBtn, menuBtnX, menuBtnY, TV_CANVAS_W, TV_CANVAS_H,
    TV_MENU_BTN_pad, TV_MENU_BTN_w, TV_MENU_BTN_h]

/-- Helper: the MENU-button click from the concrete VIDEO-mode state lands in
the button rectangle and takes the back-to-MENU branch. -/
lemma menuFromVideoState_eq :
    menuFromVideoState =
      drawTvMenu { stopVideoCompletely videoModeState with
                     tvUiState := "MENU", blinkT0 := 500 } := by
  unfold menuFromVideoState tvScreenClickVideo
  rw [if_neg (by decide), if_neg (by decide), if_pos menuBtn_hit_uv]

/-- Claim C2 counterexample: from VIDEO mode entered with selection index 1,
the in-canvas MENU-button click transitions to MENU and resets the blink
baseline but leaves the menu selection index at 1 — it is not reset. -/
theorem menu_entry_reset_counterexample :
    videoModeState.tvUiState = "VIDEO"
    ∧ videoModeState.menuIndex = 1
    ∧ menuFromVideoState.tvUiState = "MENU"
    ∧ menuFromVideoState.blinkT0 = 500
    ∧ menuFromVideoState.menuIndex = 1
    ∧ menuFromVideoState.menuIndex ≠ 0 := by
  have he := menuFromVideoState_eq
  refine ⟨rfl, rfl, ?_, ?_, ?_, ?_⟩ <;> rw [he]
  · rfl
  · rfl
  · rfl
  · decide

/-- Claim C2 (amended): power-on resets both the menu selection index (to 0)
and the blink-timer baseline; the in-canvas MENU-button clicks from PHOTO,
VIDEO and 3D MODEL reset only the blink-timer baseline and leave the menu
selection index unchanged. -/
theorem menu_entry_reset_amended (s : MainState) (u v nowMs : ℚ) :
    (s.tvOn = false →
      (setTvPower true nowMs s).menuIndex = 0
      ∧ (setTvPower true nowMs s).blinkT0 = nowMs
      ∧ (setTvPower true nowMs s).tvUiState = "MENU")
    ∧ (s.tvOn = true → s.tvUiState = "PHOTO" →
        inMenuBtn ((u * 1 + 0) * TV_CANVAS_W) ((v * 1 + 0) * TV_CANVAS_H)
          TV_CANVAS_W = true →
        (tvScreenClickPhoto u v nowMs s).tvUiState = "MENU"
        ∧ (tvScreenClickPhoto u v nowMs s).blinkT0 = nowMs
        ∧ (tvScreenClickPhoto u v nowMs s).menuIndex = s.menuIndex)
    ∧ (s.tvOn = true → s.tvUiState = "VIDEO" →
        inMenuBtn ((u * 1 + 0) * TV_CANVAS_W) ((v * 1 + 0) * TV_CANVAS_H)
          TV_CANVAS_W = true →
        (tvScreenClickVideo u v nowMs s).tvUiState = "MENU"
        ∧ (tvScreenClickVideo u v nowMs s).blinkT0 = nowMs
        ∧ (tvScreenClickVideo u v nowMs s).menuIndex = s.menuIndex)
    ∧ (s.tvOn = true → s.tvUiState = "3D MODEL" →
        inMenuBtn ((u * 1 + 0) * TV_CANVAS_W) ((v * 1 + 0) * TV_CANVAS_H)
          TV_CANVAS_W = true →
        (tvScreenClickModel u v nowMs s).tvUiState = "MENU"
        ∧ (tvScreenClickModel u v nowMs s).blinkT0 = nowMs
        ∧ (tvScreenClickModel u v nowMs s).menuIndex = s.menuIndex) := by
  refine ⟨?_, ?_, ?_, ?_⟩
  · intro h
    by_cases hm : s.hasScreenMat = false <;>
      simp [setTvPower, h, hm, drawTvMenu, applyTvTextureEnabled]
  · intro h1 h2 h3
    unfold tvScreenClickPhoto
    rw [if_neg (by simp [h1]), if_neg (by simp [h2]), if_pos h3]
    simp [drawTvMenu]
  · intro h1 h2 h3
    unfold tvScreenClickVideo
    rw [if_neg (by simp [h1]), if_neg (by simp [h2]), if_pos h3]
    rcases hv : s.videoEl with _ | el <;>
      simp [stopVideoCompletely, hv, drawTvMenu]
  · intro h1 h2 h3
    unfold tvScreenClickModel
    rw [if_neg (by simp [h1]), if_neg (by simp [h2]), if_pos h3]
    rcases hm : s.modelVideoEl with _ | el <;>
      simp [stopModelCompletely, hm, drawTvMenu]

/-- Witness for the amended C2 at the concrete states. -/
theorem menu_entry_reset_amended_witness :
    ((setTvPower true 0 initialState).menuIndex = 0
      ∧ (setTvPower true 0 initialState).blinkT0 = 0
      ∧ (setTvPower true 0 initialState).tvUiState = "MENU")
    ∧ ((tvScreenClickPhoto (95/100) (5/100) 600 photoModeState).tvUiState = "MENU"
      ∧ (tvScreenClickPhoto (95/100) (5/100) 600 photoModeState).blinkT0 = 600
      ∧ (tvScreenClickPhoto (95/100) (5/100) 600 photoModeState).menuIndex =
          photoModeState.menuIndex)
    ∧ ((tvScreenClickModel (95/100) (5/100) 600 modelModeState).tvUiState = "MENU"
      ∧ (tvScreenClickModel (95/100) (5/100) 600 modelModeState).blinkT0 = 600
      ∧ (tvScreenClickModel (95/100) (5/100) 600 modelModeState).menuIndex =
          modelModeState.menuIndex) :=
  ⟨(menu_entry_reset_amended initialState (95/100) (5/100) 0).1 rfl,
   (menu_entry_reset_amended photoModeState (95/100) (5/100) 600).2.1
      rfl rfl menuBtn_hit_uv,
   (menu_entry_reset_amended modelModeState (95/100) (5/100) 600).2.2.2
      rfl rfl menuBtn_hit_uv⟩

/-- Claim C4: powering the TV off from any powered-on state synchronously
stops both media adapters (playing flags false), blanks the ScreenBuffer to
the all-black off-color, and detaches the screen texture — all in the state
returned by setTvPower itself, in which the power transition animation has
only just been created (t0 = now), and all preserved by every subsequent
animator tick until and beyond its completion. -/
theorem power_off_stops_and_blanks (s : MainState) (nowMs : ℚ)
    (hOn : s.tvOn = true) (hMat : s.hasScreenMat = true)
    (hv : s.videoEl = none → s.videoPlaying = false)
    (hm : s.modelVideoEl = none → s.modelPlaying = false) :
    (setTvPower false nowMs s).videoPlaying = false
    ∧ (setTvPower false nowMs s).modelPlaying = false
    ∧ Canvas.allPixels (setTvPower false nowMs s).canvas TV_OFF_COLOR = true
    ∧ (setTvPower false nowMs s).texAttached = false
    ∧ (setTvPower false nowMs s).tvAnim =
        some { animFrom := 1, animTo := 0, t0 := nowMs / 1000 }
    ∧ (∀ nowMs2 rand : ℚ,
        (updateTv nowMs2 rand (setTvPower false nowMs s)).videoPlaying = false
        ∧ (updateTv nowMs2 rand (setTvPower false nowMs s)).modelPlaying = false
        ∧ Canvas.allPixels (updateTv nowMs2 rand (setTvPower false nowMs s)).canvas
            TV_OFF_COLOR = true
        ∧ (updateTv nowMs2 rand (setTvPower false nowMs s)).texAttached = false) := by
  have core :
      (setTvPower false nowMs s).videoPlaying = false
      ∧ (setTvPower false nowMs s).modelPlaying = false
      ∧ Canvas.allPixels (setTvPower false nowMs s).canvas TV_OFF_COLOR = true
      ∧ (setTvPower false nowMs s).texAttached = false
      ∧ (setTvPower false nowMs s).tvAnim =
          some { animFrom := 1, animTo := 0, t0 := nowMs / 1000 } := by
    rcases hvEl : s.videoEl with _ | el <;>
      rcases hmEl : s.modelVideoEl with _ | el2
    · simp [setTvPower, hOn, hMat, hvEl, hmEl, hv hvEl, hm hmEl,
        stopVideoCompletely, stopModelCompletely, clearTvScreen,
        applyTvTextureEnabled, Canvas.allPixels]
    · simp [setTvPower, hOn, hMat, hvEl, hmEl, hv hvEl,
        stopVideoCompletely, stopModelCompletely, clearTvScreen,
        applyTvTextureEnabled, Canvas.allPixels]
    · simp [setTvPower, hOn, hMat, hvEl, hmEl, hm hmEl,
        stopVideoCompletely, stopModelCompletely, clearTvScreen,
        applyTvTextureEnabled, Canvas.allPixels]
    · simp [setTvPower, hOn, hMat, hvEl, hmEl,
        stopVideoCompletely, stopModelCompletely, clearTvScreen,
        applyTvTextureEnabled, Canvas.allPixels]
  refine ⟨core.1, core.2.1, core.2.2.1, core.2.2.2.1, core.2.2.2.2,
    fun nowMs2 rand => ?_⟩
  obtain ⟨l1, l2, l3, l4⟩ := updateTv_logical nowMs2 rand (setTvPower false nowMs s)
  rw [l1, l2, l3, l4]
  exact ⟨core.1, core.2.1, core.2.2.1, core.2.2.2.1⟩

/-- Witness for C4 at the concrete playing VIDEO-mode state. -/
theorem power_off_stops_and_blanks_witness :
    videoModeState.videoPlaying = true
    ∧ (setTvPower false 700 videoModeState).videoPlaying = false
    ∧ (setTvPower false 700 videoModeState).modelPlaying = false
    ∧ Canvas.allPixels (setTvPower false 700 videoModeState).canvas
        TV_OFF_COLOR = true
    ∧ (setTvPower false 700 videoModeState).texAttached = false := by
  have h := power_off_stops_and_blanks videoModeState 700 rfl rfl
    (fun hcontra => absurd hcontra (by decide)) (fun _ => rfl)
  exact ⟨rfl, h.1, h.2.1, h.2.2.1, h.2.2.2.1⟩

/-- Claim C7 counterexample: in VIDEO mode with item 0 active and playing
after a user-initiated start, the persistent TV video element reaching its
natural end does not auto-advance: videoIndex stays 0 (the element loops, it
was created with loop = true, and the source registers no ended listener on
it — the listener list of ensureVideoEl and loadVideoAt has no "ended"
entry). -/
theorem video_end_no_autoadvance_counterexample :
    videoModeState.videoIndex = 0
    ∧ videoModeState.videoPlaying = true
    ∧ (videoNaturalEnd videoModeState).videoIndex = 0
    ∧ (videoNaturalEnd videoModeState).videoIndex ≠ 1
    ∧ (videoNaturalEnd videoModeState).videoPlaying = true
    ∧ (videoNaturalEnd videoModeState).videoEl =
        some { src := some (VIDEO_PATHS.getD 0 ""), loop := true,
               paused := false, currentTime := 0 }
    ∧ videoElListenerEvents.contains "ended" = false :=
  ⟨rfl, rfl, rfl, by decide, rfl, rfl, by decide⟩

/-- Claim C7 (amended): the TV Video adapter never auto-advances on natural
end — its element loops and the source installs no ended listener on it, so
videoIndex is unchanged by a natural end.  The guarded auto-advance the spec
describes is implemented by the speaker audio playlist: its per-track ended
listener advances exactly when the ended track is still the active index and
playback was active, and is a no-op otherwise. -/
theorem video_end_amended (s : MainState) (a : AudioState) (i : ℕ) :
    (videoNaturalEnd s).videoIndex = s.videoIndex
    ∧ (i ≠ a.trackIndex → audioEndedHandler i a = a)
    ∧ (a.isPlaying = false → audioEndedHandler i a = a)
    ∧ (a.isPlaying = true →
        audioEndedHandler a.trackIndex a =
          { a with trackIndex := (a.trackIndex + 1) % tracks.length,
                   isPlaying := true }) := by
  refine ⟨?_, ?_, ?_, ?_⟩
  · rcases hv : s.videoEl with _ | el
    · simp [videoNaturalEnd, hv]
    · by_cases hl : el.loop <;>
        simp [videoNaturalEnd, videoElDispatch, videoElListenerEvents, hv, hl]
  · intro h
    simp [audioEndedHandler, h]
  · intro h
    simp [audioEndedHandler, h]
  · intro h
    simp [audioEndedHandler, nextTrack, h]

/-- Witness for the amended C7 at concrete video and playlist states. -/
theorem video_end_amended_witness :
    (videoNaturalEnd videoModeState).videoIndex = videoModeState.videoIndex
    ∧ audioEndedHandler 1 ⟨0, true⟩ = ⟨0, true⟩
    ∧ audioEndedHandler 2 ⟨2, false⟩ = ⟨2, false⟩
    ∧ audioEndedHandler 0 ⟨0, true⟩ =
        { trackIndex := (0 + 1) % tracks.length, isPlaying := true } :=
  ⟨(video_end_amended videoModeState ⟨0, true⟩ 1).1,
   (video_end_amended videoModeState ⟨0, true⟩ 1).2.1 (by decide),
   (video_end_amended videoModeState ⟨2, false⟩ 2).2.2.1 rfl,
   (video_end_amended videoModeState ⟨0, true⟩ 0).2.2.2 rfl⟩

end GamboTv
